import Mathlib

/-!
Shallow embedding of the orbital/rotational kinematics core of the
`solar_system` visualization.

The embedded code is `class CelestialBody` of `src/script.js` (constructor,
`setupOrbit`, `update`) together with the near-duplicate variant in
`src/unnamed/part_001` (whose `update` advances time by `deltaTime * 20`),
and the static catalog `PLANETARY_DATA` of `src/script.js`.

Modelling conventions:
* JS numbers are modelled as real numbers; the literal catalog constants are
  exact decimal fractions and are kept as rationals so that the catalog is
  a computable table.
* A configuration field that may be absent (`semiMajorAxis`, `eccentricity`,
  `orbitalPeriod` are absent for the SUN entry) is an `Option ℚ`; JS
  truthiness of such a field (`if (semiMajorAxis)`) is `jsTruthy`: absent
  and `0` are falsy, everything else truthy.
* The reads `this.eccentricity` / `this.orbitalPeriod` inside `update` and
  `setupOrbit` happen only on orbiting bodies; `eVal`/`pVal` read the
  option with default `0` and every theorem that depends on these fields
  fixes their value by hypothesis, so the default is never load-bearing.
* The mutable THREE.js state touched by `update` is `currentTime`
  (`this.currentTime`), `pos` (`this.orbitHolder.position`, whose `y`
  component is always `0` and is omitted) and `spin`
  (`this.mesh.rotation.y`). Shader-uniform writes in the `part_001`
  variant touch no kinematic state and are not modelled.
-/

namespace SolarSystem

open Real

/-- Static per-body configuration, the fields destructured by the
`CelestialBody` constructor that the kinematics reads (the appearance
fields `textureMap`, `position`, `scale`, `isSun` are never read by the
kinematics and are omitted). -/
structure BodyConstants where
  radius : ℚ
  rotationPeriod : ℚ
  axialTilt : ℚ
  semiMajorAxis : Option ℚ := none
  eccentricity : Option ℚ := none
  orbitalPeriod : Option ℚ := none
deriving DecidableEq, Repr

/-- `SCALE_FACTOR = 1 / 100000` from `src/script.js`. -/
def SCALE_FACTOR : ℚ := 1 / 100000

/-- SUN entry of `PLANETARY_DATA` (`src/script.js`): no `semiMajorAxis`,
`eccentricity` or `orbitalPeriod`. -/
def SUN : BodyConstants :=
  { radius := 6963 * SCALE_FACTOR, rotationPeriod := 27, axialTilt := 7.25 }

/-- MERCURY entry of `PLANETARY_DATA`. -/
def MERCURY : BodyConstants :=
  { radius := 2439.7 * SCALE_FACTOR, rotationPeriod := 58.6,
    axialTilt := 0.034, semiMajorAxis := some 0.387,
    eccentricity := some 0.206, orbitalPeriod := some 88 }

/-- VENUS entry of `PLANETARY_DATA` (retrograde rotation). -/
def VENUS : BodyConstants :=
  { radius := 6051.8 * SCALE_FACTOR, rotationPeriod := -243,
    axialTilt := 177.4, semiMajorAxis := some 0.723,
    eccentricity := some 0.007, orbitalPeriod := some 224.7 }

/-- EARTH entry of `PLANETARY_DATA`. -/
def EARTH : BodyConstants :=
  { radius := 6371 * SCALE_FACTOR, rotationPeriod := 1,
    axialTilt := 23.44, semiMajorAxis := some 1,
    eccentricity := some 0.017, orbitalPeriod := some 365.25 }

/-- MARS entry of `PLANETARY_DATA`. -/
def MARS : BodyConstants :=
  { radius := 3389.5 * SCALE_FACTOR, rotationPeriod := 1.03,
    axialTilt := 25.19, semiMajorAxis := some 1.524,
    eccentricity := some 0.093, orbitalPeriod := some 687 }

/-- JUPITER entry of `PLANETARY_DATA`. -/
def JUPITER : BodyConstants :=
  { radius := 69911 * SCALE_FACTOR, rotationPeriod := 0.41,
    axialTilt := 3.13, semiMajorAxis := some 5.203,
    eccentricity := some 0.048, orbitalPeriod := some 4333 }

/-- SATURN entry of `PLANETARY_DATA`. -/
def SATURN : BodyConstants :=
  { radius := 58232 * SCALE_FACTOR, rotationPeriod := 0.44,
    axialTilt := 26.73, semiMajorAxis := some 9.537,
    eccentricity := some 0.054, orbitalPeriod := some 10759 }

/-- URANUS entry of `PLANETARY_DATA` (retrograde rotation). -/
def URANUS : BodyConstants :=
  { radius := 25362 * SCALE_FACTOR, rotationPeriod := -0.72,
    axialTilt := 97.77, semiMajorAxis := some 19.191,
    eccentricity := some 0.047, orbitalPeriod := some 30687 }

/-- NEPTUNE entry of `PLANETARY_DATA`. -/
def NEPTUNE : BodyConstants :=
  { radius := 24622 * SCALE_FACTOR, rotationPeriod := 0.67,
    axialTilt := 28.32, semiMajorAxis := some 30.069,
    eccentricity := some 0.009, orbitalPeriod := some 60190 }

/-- The catalog object `PLANETARY_DATA` of `src/script.js`, as the ordered
association table of its nine properties. -/
def PLANETARY_DATA : List (String × BodyConstants) :=
  [("SUN", SUN), ("MERCURY", MERCURY), ("VENUS", VENUS), ("EARTH", EARTH),
   ("MARS", MARS), ("JUPITER", JUPITER), ("SATURN", SATURN),
   ("URANUS", URANUS), ("NEPTUNE", NEPTUNE)]

/-- JS property access `PLANETARY_DATA[name]`: the entry when the property
exists, `none` (JS `undefined`) when it does not. The program contains no
other catalog-lookup operation and no exception path. -/
def lookupBody (name : String) : Option BodyConstants :=
  PLANETARY_DATA.lookup name

/-- JS truthiness of a possibly-absent numeric field: `undefined` and `0`
are falsy, any other number truthy. -/
def jsTruthy : Option ℚ → Bool
  | none => false
  | some x => x != 0

/-- Reading `this.semiMajorAxis` as a number (only ever done on truthy
values in the source). -/
def aVal (c : BodyConstants) : ℝ := ((c.semiMajorAxis.getD 0 : ℚ) : ℝ)

/-- Reading `this.eccentricity` as a number (only ever read on orbiting
bodies, where the catalog always defines it). -/
def eVal (c : BodyConstants) : ℝ := ((c.eccentricity.getD 0 : ℚ) : ℝ)

/-- Reading `this.orbitalPeriod` as a number (only ever read on orbiting
bodies, where the catalog always defines it). -/
def pVal (c : BodyConstants) : ℝ := ((c.orbitalPeriod.getD 0 : ℚ) : ℝ)

/-- `this.rotationSpeed`, assigned once by the constructor
(`src/script.js` line 117, identically in `src/unnamed/part_001` line 118):
`rotationPeriod ? (2 * Math.PI) / (rotationPeriod * 24 * 60 * 60 * 60) : 0`. -/
noncomputable def rotationSpeed (c : BodyConstants) : ℝ :=
  if c.rotationPeriod ≠ 0 then
    2 * π / ((c.rotationPeriod : ℝ) * (24 * 60 * 60 * 60))
  else 0

/-- The mutable kinematic state of a `CelestialBody`: `this.currentTime`,
`this.orbitHolder.position` (its constant `y = 0` omitted), and
`this.mesh.rotation.y`. -/
structure BodyState where
  currentTime : ℝ
  pos : ℝ × ℝ
  spin : ℝ

/-- The state right after construction: `this.currentTime = 0`, the
`orbitHolder` at the THREE.Object3D default position `(0, 0, 0)`, and
`mesh.rotation.y = 0` (only `rotation.x` is set, to the axial tilt). -/
def initState : BodyState :=
  { currentTime := 0, pos := (0, 0), spin := 0 }

/-- The orbital-position computation inside `update`
(`src/script.js` lines 176-178):
`orbitalProgress = (currentTime / orbitalPeriod) * Math.PI * 2`,
`x = semiMajorAxis * cos(orbitalProgress)`,
`z = semiMajorAxis * sin(orbitalProgress) * (1 - eccentricity)`. -/
noncomputable def orbPos (c : BodyConstants) (t : ℝ) : ℝ × ℝ :=
  let orbitalProgress := (t / pVal c) * π * 2
  (aVal c * Real.cos orbitalProgress,
   aVal c * Real.sin orbitalProgress * (1 - eVal c))

namespace CelestialBody

/-- `CelestialBody.update(deltaTime)` of `src/script.js` lines 170-185:
advance `currentTime` by `deltaTime`; if `semiMajorAxis` is truthy set the
orbit-holder position from the new time; always add `rotationSpeed` to
`mesh.rotation.y`. -/
noncomputable def update (c : BodyConstants) (s : BodyState) (deltaTime : ℝ) :
    BodyState :=
  let currentTime := s.currentTime + deltaTime
  { currentTime := currentTime
    pos := if jsTruthy c.semiMajorAxis then orbPos c currentTime else s.pos
    spin := s.spin + rotationSpeed c }

/-- The loop bound `segments = 128` of `setupOrbit`. -/
def segments : ℕ := 128

/-- The `orbitPoints` array built by `CelestialBody.setupOrbit`
(`src/script.js` lines 149-167): for `i = 0 .. segments` push the point at
`theta = (i / segments) * Math.PI * 2` (the constant `y = 0` component is
omitted); the loop's `theta` is `(i / segments) * Math.PI * 2`, inlined
here into its two uses. -/
noncomputable def orbitPoints (c : BodyConstants) : List (ℝ × ℝ) :=
  (List.range (segments + 1)).map fun (i : ℕ) =>
    (aVal c * Real.cos ((i : ℝ) / ((segments : ℕ) : ℝ) * π * 2),
     aVal c * Real.sin ((i : ℝ) / ((segments : ℕ) : ℝ) * π * 2) * (1 - eVal c))

/-- `this.orbitLine`, created by the constructor only under
`if (semiMajorAxis)` (`src/script.js` lines 143-145): the sampled points of
`setupOrbit` for a truthy `semiMajorAxis`, absent otherwise. -/
noncomputable def orbitLineOf (c : BodyConstants) : Option (List (ℝ × ℝ)) :=
  if jsTruthy c.semiMajorAxis then some (orbitPoints c) else none

/-- A finite sequence of ticks applied to a freshly constructed body. -/
noncomputable def run (c : BodyConstants) (ds : List ℝ) : BodyState :=
  ds.foldl (update c) initState

end CelestialBody

namespace Part001

/-- `CelestialBody.update(deltaTime)` of `src/unnamed/part_001` lines
275-300: identical to the `src/script.js` version except that it advances
`currentTime` by `deltaTime * 20` (the shader-uniform writes touch no
kinematic state). -/
noncomputable def update (c : BodyConstants) (s : BodyState) (deltaTime : ℝ) :
    BodyState :=
  let currentTime := s.currentTime + deltaTime * 20
  { currentTime := currentTime
    pos := if jsTruthy c.semiMajorAxis then orbPos c currentTime else s.pos
    spin := s.spin + rotationSpeed c }

/-- A finite sequence of ticks applied to a freshly constructed body of the
`part_001` variant. -/
noncomputable def run (c : BodyConstants) (ds : List ℝ) : BodyState :=
  ds.foldl (update c) initState

end Part001

/-! ### Helper lemmas about single ticks and tick sequences -/

lemma update_currentTime (c : BodyConstants) (s : BodyState) (d : ℝ) :
    (CelestialBody.update c s d).currentTime = s.currentTime + d := rfl

lemma update_spin (c : BodyConstants) (s : BodyState) (d : ℝ) :
    (CelestialBody.update c s d).spin = s.spin + rotationSpeed c := rfl

lemma update_pos_of_truthy {c : BodyConstants}
    (h : jsTruthy c.semiMajorAxis = true) (s : BodyState) (d : ℝ) :
    (CelestialBody.update c s d).pos = orbPos c (s.currentTime + d) := by
  simp [CelestialBody.update, h]

lemma update_pos_of_falsy {c : BodyConstants}
    (h : jsTruthy c.semiMajorAxis = false) (s : BodyState) (d : ℝ) :
    (CelestialBody.update c s d).pos = s.pos := by
  simp [CelestialBody.update, h]

lemma foldl_update_currentTime (c : BodyConstants) (ds : List ℝ)
    (s : BodyState) :
    (ds.foldl (CelestialBody.update c) s).currentTime =
      s.currentTime + ds.sum := by
  induction ds generalizing s with
  | nil => simp
  | cons d ds ih =>
    rw [List.foldl_cons, ih, update_currentTime, List.sum_cons]
    ring

lemma run_currentTime (c : BodyConstants) (ds : List ℝ) :
    (CelestialBody.run c ds).currentTime = ds.sum := by
  rw [CelestialBody.run, foldl_update_currentTime]
  simp [initState]

lemma run_concat (c : BodyConstants) (ds : List ℝ) (d : ℝ) :
    CelestialBody.run c (ds ++ [d]) =
      CelestialBody.update c (CelestialBody.run c ds) d := by
  simp [CelestialBody.run, List.foldl_append]

lemma run_pos_of_truthy {c : BodyConstants}
    (h : jsTruthy c.semiMajorAxis = true) (ds : List ℝ) (hne : ds ≠ []) :
    (CelestialBody.run c ds).pos =
      orbPos c (CelestialBody.run c ds).currentTime := by
  rcases ds.eq_nil_or_concat' with h0 | ⟨L, b, rfl⟩
  · exact absurd h0 hne
  · rw [run_concat, update_pos_of_truthy h, update_currentTime]

lemma foldl_update_pos_of_falsy {c : BodyConstants}
    (h : jsTruthy c.semiMajorAxis = false) (ds : List ℝ) (s : BodyState) :
    (ds.foldl (CelestialBody.update c) s).pos = s.pos := by
  induction ds generalizing s with
  | nil => rfl
  | cons d ds ih => rw [List.foldl_cons, ih, update_pos_of_falsy h]

lemma pVal_eq {c : BodyConstants} {P : ℚ} (hP : c.orbitalPeriod = some P) :
    pVal c = (P : ℝ) := by
  simp [pVal, hP]

lemma orbPos_add_period (c : BodyConstants) {P : ℚ}
    (hP : c.orbitalPeriod = some P) (hPpos : 0 < P) (t : ℝ) :
    orbPos c (t + (P : ℝ)) = orbPos c t := by
  have hne : (P : ℝ) ≠ 0 := by exact_mod_cast hPpos.ne'
  have harg : (t + (P : ℝ)) / (P : ℝ) * π * 2 = t / (P : ℝ) * π * 2 + 2 * π := by
    field_simp
    ring
  simp only [orbPos, pVal_eq hP, harg, Real.cos_add_two_pi, Real.sin_add_two_pi]

/-! ### Claim theorems -/

/-- C1: for every orbiting body (`semiMajorAxis` present and truthy,
`orbitalPeriod P > 0`, eccentricity `e` with `0 ≤ e < 1`) and every
non-negative elapsed time, the position computed by the per-tick `update`
equals `(x, z)` with `x = semiMajorAxis * cos((t / P) * 2π)` and
`z = semiMajorAxis * sin((t / P) * 2π) * (1 - e)`, where `t` is the
elapsed time after the tick. -/
theorem C1_update_position (c : BodyConstants) (a e P : ℚ)
    (ha : c.semiMajorAxis = some a) (ha0 : a ≠ 0)
    (he : c.eccentricity = some e) (he0 : 0 ≤ e) (he1 : e < 1)
    (hP : c.orbitalPeriod = some P) (hPpos : 0 < P)
    (s : BodyState) (d : ℝ) (ht : 0 ≤ s.currentTime + d) :
    (CelestialBody.update c s d).pos =
      ((a : ℝ) * Real.cos ((s.currentTime + d) / (P : ℝ) * (2 * π)),
       (a : ℝ) * Real.sin ((s.currentTime + d) / (P : ℝ) * (2 * π)) *
         (1 - (e : ℝ))) := by
  have htruthy : jsTruthy c.semiMajorAxis = true := by
    rw [ha]
    simp [jsTruthy, ha0]
  rw [update_pos_of_truthy htruthy]
  have harg : (s.currentTime + d) / pVal c * π * 2 =
      (s.currentTime + d) / (P : ℝ) * (2 * π) := by
    rw [pVal_eq hP]
    ring
  simp only [orbPos, harg, aVal, eVal, ha, he, Option.getD_some]

/-- Witness for C1 at the EARTH constants, one tick of `deltaTime = 0`. -/
theorem C1_update_position_witness :
    EARTH.semiMajorAxis = some 1 ∧ (0 : ℚ) < 365.25 ∧
    (CelestialBody.update EARTH initState 0).pos =
      (((1 : ℚ) : ℝ) *
         Real.cos ((initState.currentTime + 0) / ((365.25 : ℚ) : ℝ) * (2 * π)),
       ((1 : ℚ) : ℝ) *
         Real.sin ((initState.currentTime + 0) / ((365.25 : ℚ) : ℝ) * (2 * π)) *
         (1 - ((0.017 : ℚ) : ℝ))) :=
  ⟨rfl, by norm_num,
    C1_update_position EARTH 1 0.017 365.25 rfl (by norm_num) rfl (by norm_num)
      (by norm_num) rfl (by norm_num) initState 0 (by norm_num [initState])⟩

/-- C2: the orbital position computed by the per-tick update is periodic in
the elapsed time with period `orbitalPeriod`: for `P > 0` and `t ≥ 0`,
`orbPos c (t + P) = orbPos c t`. -/
theorem C2_position_periodic (c : BodyConstants) (P : ℚ)
    (hP : c.orbitalPeriod = some P) (hPpos : 0 < P) (t : ℝ) (ht : 0 ≤ t) :
    orbPos c (t + (P : ℝ)) = orbPos c t :=
  orbPos_add_period c hP hPpos t

/-- Witness for C2 at the EARTH constants and `t = 0`. -/
theorem C2_position_periodic_witness :
    EARTH.orbitalPeriod = some 365.25 ∧ (0 : ℚ) < 365.25 ∧
    orbPos EARTH (0 + ((365.25 : ℚ) : ℝ)) = orbPos EARTH 0 :=
  ⟨rfl, by norm_num, C2_position_periodic EARTH 365.25 rfl (by norm_num) 0 le_rfl⟩

/-- C3: a body constructed without a `semiMajorAxis` keeps position
`(0, 0)` after any finite sequence of ticks with non-negative deltas. -/
theorem C3_stationary (c : BodyConstants) (h : c.semiMajorAxis = none)
    (ds : List ℝ) (hds : ∀ d ∈ ds, 0 ≤ d) :
    (CelestialBody.run c ds).pos = (0, 0) := by
  have hf : jsTruthy c.semiMajorAxis = false := by
    rw [h]
    rfl
  rw [CelestialBody.run, foldl_update_pos_of_falsy hf]
  rfl

/-- Witness for C3 at the SUN constants and the tick sequence `[1, 2]`. -/
theorem C3_stationary_witness :
    SUN.semiMajorAxis = none ∧ (CelestialBody.run SUN [1, 2]).pos = (0, 0) :=
  ⟨rfl, C3_stationary SUN rfl [1, 2] (by
    rintro d hd
    simp only [List.mem_cons, List.not_mem_nil, or_false] at hd
    rcases hd with rfl | rfl <;> norm_num)⟩

/-- C4 counterexample: one tick with `deltaTime = 0` on a freshly
constructed EARTH body changes `spinAngle`: `update` adds `rotationSpeed`
to `mesh.rotation.y` on every tick, independently of `deltaTime`. -/
theorem C4_zero_tick_counterexample :
    (CelestialBody.update EARTH initState 0).spin ≠ initState.spin := by
  have h : rotationSpeed EARTH = 2 * π / ((1 : ℝ) * (24 * 60 * 60 * 60)) := by
    rw [rotationSpeed]
    norm_num [EARTH]
  have hpos : (0 : ℝ) < 2 * π / ((1 : ℝ) * (24 * 60 * 60 * 60)) := by
    positivity
  rw [update_spin, h]
  simp only [initState, zero_add]
  exact ne_of_gt hpos

/-- C4 amended: a tick with `deltaTime = 0` leaves `elapsedTime` and (on a
body that has already been ticked at least once) `position` unchanged, but
`spinAngle` still advances by `rotationSpeed` — it is unchanged only for a
non-rotating body.  (On a never-ticked orbiting body even a zero tick moves
`position` from the origin onto the orbit curve.) -/
theorem C4_zero_tick_amended (c : BodyConstants) (ds : List ℝ)
    (hne : ds ≠ []) :
    (CelestialBody.update c (CelestialBody.run c ds) 0).currentTime =
      (CelestialBody.run c ds).currentTime ∧
    (CelestialBody.update c (CelestialBody.run c ds) 0).pos =
      (CelestialBody.run c ds).pos ∧
    (CelestialBody.update c (CelestialBody.run c ds) 0).spin =
      (CelestialBody.run c ds).spin + rotationSpeed c := by
  refine ⟨by rw [update_currentTime, add_zero], ?_,
    update_spin c (CelestialBody.run c ds) 0⟩
  cases htr : jsTruthy c.semiMajorAxis with
  | false => exact update_pos_of_falsy htr (CelestialBody.run c ds) 0
  | true =>
    rw [update_pos_of_truthy htr, add_zero, run_pos_of_truthy htr ds hne]

/-- Witness for the amended C4 at the EARTH constants after one tick. -/
theorem C4_zero_tick_amended_witness :
    (CelestialBody.update EARTH (CelestialBody.run EARTH [1]) 0).currentTime =
      (CelestialBody.run EARTH [1]).currentTime ∧
    (CelestialBody.update EARTH (CelestialBody.run EARTH [1]) 0).pos =
      (CelestialBody.run EARTH [1]).pos ∧
    (CelestialBody.update EARTH (CelestialBody.run EARTH [1]) 0).spin =
      (CelestialBody.run EARTH [1]).spin + rotationSpeed EARTH :=
  C4_zero_tick_amended EARTH [1] (by simp)

/-- C5 counterexample: for `rotationPeriod = 1` (EARTH) the derived
`rotationSpeed` is `2π / (1 * 5184000)` and not `2π / (|1| * 86400)`:
the conversion constant in the source is `24 * 60 * 60 * 60 = 5184000`,
not `86400`. -/
theorem C5_conversion_counterexample :
    rotationSpeed EARTH ≠ 2 * π / (|((1 : ℚ) : ℝ)| * 86400) := by
  have h : rotationSpeed EARTH = 2 * π / ((1 : ℝ) * (24 * 60 * 60 * 60)) := by
    rw [rotationSpeed]
    norm_num [EARTH]
  rw [h]
  have hone : |((1 : ℚ) : ℝ)| = 1 := by norm_num
  rw [hone, one_mul, one_mul]
  have h24 : ((24 : ℝ) * 60 * 60 * 60) = 5184000 := by norm_num
  rw [h24]
  exact ne_of_lt
    (div_lt_div_of_pos_left Real.two_pi_pos (by norm_num) (by norm_num))

/-- C5 amended: `rotationSpeed` is `0` when `rotationPeriod = 0` and
otherwise `sign(rotationPeriod) * 2π / (|rotationPeriod| * 5184000)`; the
conversion constant is `24 * 60 * 60 * 60 = 5184000` ticks per simulated
day (86400 seconds per day under the source's assumed 60 ticks per
second), not 86400. -/
theorem C5_rotation_speed_amended (c : BodyConstants) :
    rotationSpeed c =
      if c.rotationPeriod = 0 then 0
      else (if 0 < c.rotationPeriod then 1 else -1) *
        (2 * π / (|((c.rotationPeriod : ℚ) : ℝ)| * 5184000)) := by
  rw [rotationSpeed]
  rcases lt_trichotomy c.rotationPeriod 0 with h | h | h
  · have hne : c.rotationPeriod ≠ 0 := h.ne
    have hnotlt : ¬ 0 < c.rotationPeriod := not_lt.mpr h.le
    rw [if_pos hne, if_neg hne, if_neg hnotlt]
    have hcast : ((c.rotationPeriod : ℚ) : ℝ) < 0 := by exact_mod_cast h
    have h24 : ((24 : ℝ) * 60 * 60 * 60) = 5184000 := by norm_num
    rw [abs_of_neg hcast, h24]
    have hswap : -((c.rotationPeriod : ℚ) : ℝ) * (5184000 : ℝ) =
        -(((c.rotationPeriod : ℚ) : ℝ) * 5184000) := by ring
    rw [hswap, div_neg]
    ring
  · have hnotne : ¬ c.rotationPeriod ≠ 0 := by simp [h]
    rw [if_neg hnotne, if_pos h]
  · have hne : c.rotationPeriod ≠ 0 := h.ne'
    rw [if_pos hne, if_neg hne, if_pos h]
    have hcast : (0 : ℝ) < ((c.rotationPeriod : ℚ) : ℝ) := by exact_mod_cast h
    have h24 : ((24 : ℝ) * 60 * 60 * 60) = 5184000 := by norm_num
    rw [abs_of_pos hcast, h24, one_mul]

/-- The §8 failing configuration for C6: `semiMajorAxis` present (`1`) and
`orbitalPeriod = 0`. -/
def badPeriodBody : BodyConstants :=
  { radius := 1, rotationPeriod := 0, axialTilt := 0,
    semiMajorAxis := some 1, eccentricity := some 0,
    orbitalPeriod := some 0 }

/-- C6 (code bug): the constructor performs no validation.  With
`semiMajorAxis` present and `orbitalPeriod = 0` construction still
succeeds: the orbiting branch runs (`setupOrbit` creates the orbit line),
the zero period is stored, and ticks proceed normally — the first `update`
then divides `currentTime` by the zero period, which in JS yields
`NaN`/`Infinity` instead of any ConfigurationError. -/
theorem C6_no_construction_validation :
    jsTruthy badPeriodBody.semiMajorAxis = true ∧
    badPeriodBody.orbitalPeriod = some 0 ∧
    CelestialBody.orbitLineOf badPeriodBody =
      some (CelestialBody.orbitPoints badPeriodBody) ∧
    (CelestialBody.update badPeriodBody initState 1).currentTime = 1 := by
  have htr : jsTruthy badPeriodBody.semiMajorAxis = true := by decide
  refine ⟨htr, rfl, ?_, ?_⟩
  · rw [CelestialBody.orbitLineOf, if_pos htr]
  · rw [update_currentTime]
    norm_num [initState]

lemma lookup_eq_none_of_keys (l : List (String × BodyConstants))
    (name : String) (h : ∀ p ∈ l, p.1 ≠ name) : l.lookup name = none := by
  induction l with
  | nil => rfl
  | cons p l ih =>
    obtain ⟨k, b⟩ := p
    have hk : k ≠ name := h (k, b) (List.mem_cons_self _ _)
    have hb : (name == k) = false :=
      beq_eq_false_iff_ne.mpr fun he => hk he.symm
    simp only [List.lookup, hb]
    exact ih fun q hq => h q (List.mem_cons_of_mem _ hq)

/-- C7 counterexample: the catalog access for the absent name `"PLUTO"`
evaluates to `none` (JS `undefined`); it does not raise — the program
contains no NotFoundError and no throwing lookup. -/
theorem C7_lookup_counterexample : lookupBody "PLUTO" = none := by decide

/-- C7 amended: a catalog access for any name that is not a key of
`PLANETARY_DATA` returns no entry (JS `undefined`) rather than raising;
the program defines no NotFoundError. -/
theorem C7_lookup_amended (name : String)
    (h : name ∉ PLANETARY_DATA.map Prod.fst) : lookupBody name = none := by
  apply lookup_eq_none_of_keys
  intro p hp hpe
  exact h (hpe ▸ List.mem_map_of_mem Prod.fst hp)

/-- Witness for the amended C7 at the name `"PLUTO"`. -/
theorem C7_lookup_amended_witness :
    "PLUTO" ∉ PLANETARY_DATA.map Prod.fst ∧ lookupBody "PLUTO" = none :=
  ⟨by decide, C7_lookup_amended "PLUTO" (by decide)⟩

/-- C8: for an orbiting body the sampled orbit path has exactly 129 points
(128 segments plus the closing point); point `i` is the §4.2 parametric
formula at angle `(i / 128) * 2π`; the first and the last point are both
`(semiMajorAxis, 0)`, so the loop is closed.  (`orbitPoints` takes only the
static constants, so the path cannot depend on `elapsedTime`.) -/
theorem C8_orbit_path (c : BodyConstants) (a e : ℚ)
    (ha : c.semiMajorAxis = some a) (he : c.eccentricity = some e) :
    (CelestialBody.orbitPoints c).length = 129 ∧
    (∀ i, (h : i < (CelestialBody.orbitPoints c).length) →
      (CelestialBody.orbitPoints c)[i] =
        ((a : ℝ) * Real.cos ((i : ℝ) / 128 * (2 * π)),
         (a : ℝ) * Real.sin ((i : ℝ) / 128 * (2 * π)) * (1 - (e : ℝ)))) ∧
    (CelestialBody.orbitPoints c).head? = some ((a : ℝ), 0) ∧
    (CelestialBody.orbitPoints c).getLast? = some ((a : ℝ), 0) := by
  have hlen : (CelestialBody.orbitPoints c).length = 129 := by
    simp [CelestialBody.orbitPoints, CelestialBody.segments]
  have hget : ∀ i, (h : i < (CelestialBody.orbitPoints c).length) →
      (CelestialBody.orbitPoints c)[i] =
        ((a : ℝ) * Real.cos ((i : ℝ) / 128 * (2 * π)),
         (a : ℝ) * Real.sin ((i : ℝ) / 128 * (2 * π)) * (1 - (e : ℝ))) := by
    intro i hi
    simp only [CelestialBody.orbitPoints, CelestialBody.segments,
      List.getElem_map, List.getElem_range, aVal, eVal, ha, he,
      Option.getD_some, Nat.cast_ofNat]
    have harg : (i : ℝ) / 128 * π * 2 = (i : ℝ) / 128 * (2 * π) := by ring
    rw [harg]
  have hhead : (CelestialBody.orbitPoints c).head? = some ((a : ℝ), 0) := by
    simp only [CelestialBody.orbitPoints, List.range_succ_eq_map,
      List.map_cons, List.head?_cons, aVal, eVal, ha, he, Option.getD_some]
    norm_num
  have hlast : (CelestialBody.orbitPoints c).getLast? = some ((a : ℝ), 0) := by
    rw [List.getLast?_eq_getElem?, hlen]
    show (CelestialBody.orbitPoints c)[(128 : ℕ)]? = some ((a : ℝ), 0)
    rw [List.getElem?_eq_getElem (by rw [hlen]; norm_num)]
    rw [hget 128 (by rw [hlen]; norm_num)]
    norm_num [Real.cos_two_pi, Real.sin_two_pi]
  exact ⟨hlen, hget, hhead, hlast⟩

/-- Witness for C8 at the EARTH constants. -/
theorem C8_orbit_path_witness :
    EARTH.semiMajorAxis = some 1 ∧ EARTH.eccentricity = some 0.017 ∧
    (CelestialBody.orbitPoints EARTH).length = 129 ∧
    (CelestialBody.orbitPoints EARTH).head? = some (((1 : ℚ) : ℝ), 0) ∧
    (CelestialBody.orbitPoints EARTH).getLast? = some (((1 : ℚ) : ℝ), 0) :=
  ⟨rfl, rfl, (C8_orbit_path EARTH 1 0.017 rfl rfl).1,
    (C8_orbit_path EARTH 1 0.017 rfl rfl).2.2.1,
    (C8_orbit_path EARTH 1 0.017 rfl rfl).2.2.2⟩

/-- C9 counterexample: after one identical tick `deltaTime = 1` from the
identical fresh state, the `part_001` variant's `elapsedTime` is `20`
while the `script.js` one is `1` — the two near-duplicate `update` entry
points are not equivalent. -/
theorem C9_variant_counterexample :
    (Part001.update MERCURY initState 1).currentTime ≠
      (CelestialBody.update MERCURY initState 1).currentTime := by
  have h1 : (Part001.update MERCURY initState 1).currentTime = 20 := by
    simp [Part001.update, initState]
  have h2 : (CelestialBody.update MERCURY initState 1).currentTime = 1 := by
    simp [CelestialBody.update, initState]
  rw [h1, h2]
  norm_num

lemma part001_update_eq (c : BodyConstants) (s : BodyState) (d : ℝ) :
    Part001.update c s d = CelestialBody.update c s (20 * d) := by
  simp only [Part001.update, CelestialBody.update]
  rw [mul_comm]

lemma part001_run_eq (c : BodyConstants) (ds : List ℝ) :
    Part001.run c ds = CelestialBody.run c (ds.map fun d => 20 * d) := by
  rw [Part001.run, CelestialBody.run]
  suffices hgen : ∀ s, ds.foldl (Part001.update c) s =
      (ds.map fun d => 20 * d).foldl (CelestialBody.update c) s from
    hgen initState
  induction ds with
  | nil => intro s; rfl
  | cons d ds ih =>
    intro s
    rw [List.foldl_cons, List.map_cons, List.foldl_cons, part001_update_eq]
    exact ih _

/-- C9 amended: the two `update` variants compute position and spin by the
same formulas from their own `elapsedTime`, but the `part_001` variant
advances `elapsedTime` by `deltaTime * 20` per tick: for any identical
sequence of `deltaTime` inputs its run equals the `script.js` run on the
`20`-times-scaled deltas, and its `elapsedTime` is always `20` times the
`script.js` one. -/
theorem C9_variant_amended (c : BodyConstants) (ds : List ℝ) :
    (Part001.run c ds).currentTime =
      20 * (CelestialBody.run c ds).currentTime ∧
    Part001.run c ds = CelestialBody.run c (ds.map fun d => 20 * d) := by
  refine ⟨?_, part001_run_eq c ds⟩
  rw [part001_run_eq, run_currentTime, run_currentTime]
  simpa using List.sum_map_mul_left ds (fun x => x) 20

/-- A configuration whose `semiMajorAxis` is present but `0`, for the C10
witness. -/
def zeroAxisBody : BodyConstants :=
  { radius := 1, rotationPeriod := 1, axialTilt := 0,
    semiMajorAxis := some 0, eccentricity := some 0,
    orbitalPeriod := some 1 }

/-- C10: a body whose `semiMajorAxis` is present but `0` is treated exactly
like one with no `semiMajorAxis`, because the Orbiting/Stationary branches
test JS truthiness: the constructor creates no orbit line and every tick
sequence leaves the position at the origin. -/
theorem C10_zero_axis_stationary (c : BodyConstants)
    (h : c.semiMajorAxis = some 0) :
    CelestialBody.orbitLineOf c = none ∧
    ∀ ds : List ℝ, (CelestialBody.run c ds).pos = (0, 0) := by
  have hf : jsTruthy c.semiMajorAxis = false := by
    rw [h]
    decide
  refine ⟨?_, ?_⟩
  · simp [CelestialBody.orbitLineOf, hf]
  · intro ds
    rw [CelestialBody.run, foldl_update_pos_of_falsy hf]
    rfl

/-- Witness for C10 at a concrete zero-axis configuration and the tick
sequence `[1, 2]`. -/
theorem C10_zero_axis_stationary_witness :
    zeroAxisBody.semiMajorAxis = some 0 ∧
    CelestialBody.orbitLineOf zeroAxisBody = none ∧
    (CelestialBody.run zeroAxisBody [1, 2]).pos = (0, 0) :=
  ⟨rfl, (C10_zero_axis_stationary zeroAxisBody rfl).1,
    (C10_zero_axis_stationary zeroAxisBody rfl).2 [1, 2]⟩

end SolarSystem
